import Mathlib

/-!
# Verification of the CommandTree workspace fixture scripts

Shallow embedding of the three Python fixture scripts that make up this
repository:

* `scripts/deploy.py`        — prints a deployment-target line,
* `scripts/build_project.py` — prints a build-configuration line,
* `scripts/run_tests.py`     — parses two optional flags via `argparse` and
  prints an echo line.

Each script is modelled as a pure function from the full argument vector
`sys.argv` (index 0 is the program name) to a `ProcResult`: the ordered list
of observable effects the process performs plus its exit status.  Python's
`print(s)` writes the single line `s` to standard output and is modelled by
the effect `Effect.writeStdout s`.
-/

/-- An observable effect a process can perform.  The filesystem constructors
exist so that "the scripts touch no files" is a statement rather than a
tautology of the effect type: none of the embedded scripts ever emits them. -/
inductive Effect where
  | writeStdout (line : String)
  | writeStderr (line : String)
  | readFile (path : String)
  | writeFile (path : String)
deriving DecidableEq, Repr

/-- Result of one process invocation: the ordered effect trace and the exit
status. -/
structure ProcResult where
  effects : List Effect
  exitCode : Nat
deriving DecidableEq, Repr

/-- The lines a result writes to standard output, in order. -/
def stdoutLines (r : ProcResult) : List String :=
  r.effects.filterMap fun e =>
    match e with
    | .writeStdout s => some s
    | _ => none

/-- `true` iff the effect is a write to standard output. -/
def isStdoutWrite : Effect → Bool
  | .writeStdout _ => true
  | _ => false

/-- `true` iff the effect is console output (standard output or standard
error), as opposed to a filesystem access. -/
def isConsoleEffect : Effect → Bool
  | .writeStdout _ => true
  | .writeStderr _ => true
  | _ => false

/-- `l[n]` when the index is in range, `d` otherwise: the semantics of the
Python idiom `l[n] if len(l) > n else d`. -/
def nthD (l : List String) (n : Nat) (d : String) : String :=
  (l.get? n).getD d

/-- `scripts/deploy.py`:
`env = sys.argv[1] if len(sys.argv) > 1 else "staging"`;
`print(f"Deploying to {env}")`. -/
def deploy_main (argv : List String) : ProcResult :=
  let env := nthD argv 1 "staging"
  { effects := [.writeStdout ("Deploying to " ++ env)], exitCode := 0 }

/-- `scripts/build_project.py`:
`config = sys.argv[1] if len(sys.argv) > 1 else "debug"`;
`output = sys.argv[2] if len(sys.argv) > 2 else "dist"`;
`print(f"Building with config={config}, output={output}")`. -/
def build_project_main (argv : List String) : ProcResult :=
  let config := nthD argv 1 "debug"
  let output := nthD argv 2 "dist"
  { effects := [.writeStdout ("Building with config=" ++ config ++ ", output=" ++ output)],
    exitCode := 0 }

/-!
## `scripts/run_tests.py`

The script builds `argparse.ArgumentParser(description="Run tests")`, adds the
optional single-value flags `--verbose` and `--filter`, calls `parse_args()`
(which parses `sys.argv[1:]`) and prints
`f"Running tests: verbose={args.verbose}, filter={args.filter}"`.

The argument-parsing layer is the Python standard library, not code of this
repository, so the definitions below model the observable behaviour of
CPython's `argparse` for exactly this parser configuration (option strings
`-h`/`--help`, `--verbose`, `--filter`, no positionals):

* a token is classified as in `ArgumentParser._parse_optional`: exact option
  match, the `--` separator, `name=value` splitting at the first `=`,
  unambiguous prefix abbreviation of long options, the negative-number and
  embedded-space exceptions, and otherwise unknown-option or positional;
* a flag without `=value` consumes the next token as its value only when that
  token is classified as a positional; otherwise the parser errors with
  "expected one argument";
* tokens that are positionals or unknown options are collected and reported
  at the end as "unrecognized arguments" (exit status 2, usage and message on
  standard error, nothing on standard output); a free-standing `--`
  separator, together with everything after it, is likewise rejected as
  unrecognized, since the parser has no positionals (CPython 3.11
  behaviour);
* `-h`/`--help` prints the auto-generated help to standard output and exits
  with status 0 the moment it is parsed.
-/

/-- `s.startswith(p)` on the underlying character lists. -/
def strStartsWith (s p : String) : Bool :=
  p.data.isPrefixOf s.data

/-- The classification `argparse` gives one command-line token of this
parser. -/
inductive Tok where
  | separator
  | helpOk
  | helpVal
  | ambiguousOpt
  | verboseOpt (val : Option String)
  | filterOpt (val : Option String)
  | unknownOpt
  | positional
deriving DecidableEq, Repr

/-- Split a character list at the first `=`, Python's `s.split("=", 1)`:
`none` when there is no `=`, otherwise the parts before and after it. -/
def splitEqChars : List Char → Option (List Char × List Char)
  | [] => none
  | '=' :: rest => some ([], rest)
  | c :: rest =>
    match splitEqChars rest with
    | none => none
    | some (a, b) => some (c :: a, b)

/-- `s.split("=", 1)` on strings: the part before the first `=` and, when an
`=` is present, the part after it. -/
def splitEq (s : String) : String × Option String :=
  match splitEqChars s.data with
  | none => (s, none)
  | some (a, b) => (⟨a⟩, some ⟨b⟩)

/-- `\d*\.\d+` — the fractional alternative of `argparse`'s negative-number
matcher, on the characters after the minus sign. -/
def digitsDotDigits (cs : List Char) : Bool :=
  match cs.dropWhile Char.isDigit with
  | '.' :: tail => !tail.isEmpty && tail.all Char.isDigit
  | _ => false

/-- `argparse._negative_number_matcher`: `^-\d+$|^-\d*\.\d+$`. -/
def isNegativeNumber (s : String) : Bool :=
  match s.data with
  | '-' :: rest => (!rest.isEmpty && rest.all Char.isDigit) || digitsDotDigits rest
  | _ => false

/-- The long option strings of this parser, for prefix abbreviation. -/
def longOptions : List String := ["--help", "--verbose", "--filter"]

/-- The long options that `stem` abbreviates (`_get_option_tuples`):
those having `stem` as a string prefix. -/
def abbrevMatches (stem : String) : List String :=
  longOptions.filter fun o => stem.data.isPrefixOf o.data

/-- Map one matched long option string together with an optional explicit
`=value` to its token class. -/
def longOptionTok (o : String) (val : Option String) : Tok :=
  if o = "--verbose" then .verboseOpt val
  else if o = "--filter" then .filterOpt val
  else match val with
    | none => .helpOk
    | some _ => .helpVal

/-- Token classification, following `ArgumentParser._parse_optional` for this
parser's option table. -/
def classify (t : String) : Tok :=
  if t = "" then .positional
  else if !(strStartsWith t "-") then .positional
  else if t = "--verbose" then .verboseOpt none
  else if t = "--filter" then .filterOpt none
  else if t = "-h" || t = "--help" then .helpOk
  else if t = "-" then .positional
  else if t = "--" then .separator
  else
    let (stem, val) := splitEq t
    if val.isSome && stem = "--verbose" then .verboseOpt val
    else if val.isSome && stem = "--filter" then .filterOpt val
    else if val.isSome && (stem = "--help" || stem = "-h") then .helpVal
    else if strStartsWith t "--" then
      match abbrevMatches stem with
      | [o] => longOptionTok o val
      | [] =>
        if isNegativeNumber t then .positional
        else if t.data.contains ' ' then .positional
        else .unknownOpt
      | _ => .ambiguousOpt
    else
      if isNegativeNumber t then .positional
      else if t.data.contains ' ' then .positional
      else .unknownOpt

/-- Outcome of `parser.parse_args()`: a populated namespace, an immediate
help exit, or a parse error (which `argparse` turns into exit status 2). -/
inductive ParseOutcome where
  | ok (verbose filterVal : Option String)
  | help
  | error (msg : String)
deriving DecidableEq, Repr

/-- Join strings with single spaces, `" ".join(l)`. -/
def joinSpaces : List String → String
  | [] => ""
  | [s] => s
  | s :: rest => s ++ " " ++ joinSpaces rest

/-- The parse loop over the tokens of `sys.argv[1:]`, carrying the current
`verbose` and `filter` values and the unrecognized extras collected so far. -/
def parseLoop : List String → Option String → Option String → List String → ParseOutcome
  | [], v, f, extras =>
    if extras.isEmpty then .ok v f
    else .error ("unrecognized arguments: " ++ joinSpaces extras)
  | t :: rest, v, f, extras =>
    match classify t with
    | .separator =>
      .error ("unrecognized arguments: " ++ joinSpaces (extras ++ t :: rest))
    | .helpOk => .help
    | .helpVal => .error "argument -h/--help: ignored explicit argument"
    | .ambiguousOpt => .error ("ambiguous option: " ++ t)
    | .verboseOpt (some val) => parseLoop rest (some val) f extras
    | .verboseOpt none =>
      match rest with
      | [] => .error "argument --verbose: expected one argument"
      | val :: rest2 =>
        if classify val = .positional then parseLoop rest2 (some val) f extras
        else .error "argument --verbose: expected one argument"
    | .filterOpt (some val) => parseLoop rest v (some val) extras
    | .filterOpt none =>
      match rest with
      | [] => .error "argument --filter: expected one argument"
      | val :: rest2 =>
        if classify val = .positional then parseLoop rest2 v (some val) extras
        else .error "argument --filter: expected one argument"
    | .unknownOpt => parseLoop rest v f (extras ++ [t])
    | .positional => parseLoop rest v f (extras ++ [t])

/-- `parser.parse_args()` on the user tokens `sys.argv[1:]`. -/
def parse_args (tokens : List String) : ParseOutcome :=
  parseLoop tokens none none []

/-- Python's `str()` as applied by an f-string to an `Optional[str]` value:
`None` prints as the four characters `None`. -/
def pyStr : Option String → String
  | none => "None"
  | some s => s

/-- The characters after the last `/`, accumulating the current component. -/
def basenameChars : List Char → List Char → List Char
  | [], acc => acc.reverse
  | '/' :: rest, _ => basenameChars rest []
  | c :: rest, acc => basenameChars rest (c :: acc)

/-- `os.path.basename(sys.argv[0])`, which `argparse` uses as the program
name in usage and help text. -/
def basenameStr (s : String) : String :=
  ⟨basenameChars s.data []⟩

/-- The usage line `argparse` generates for this parser. -/
def usageLine (prog : String) : String :=
  "usage: " ++ prog ++ " [-h] [--verbose VERBOSE] [--filter FILTER]"

/-- The auto-generated help text of this parser, one entry per line, as
printed by `-h`/`--help`.  The exact wording and spacing vary with the
Python version; no theorem below depends on this content, only on the help
path being a distinct multi-line stdout output. -/
def helpLines (prog : String) : List String :=
  [usageLine prog,
   "",
   "Run tests",
   "",
   "options:",
   "  -h, --help         show this help message and exit",
   "  --verbose VERBOSE  Enable verbose output",
   "  --filter FILTER    Filter tests by pattern"]

/-- `scripts/run_tests.py`: parse `sys.argv[1:]` with the parser above, then
`print(f"Running tests: verbose={args.verbose}, filter={args.filter}")`.
On a parse error `argparse` writes the usage line and an error message to
standard error and exits with status 2; on `-h`/`--help` it writes the help
text to standard output and exits with status 0. -/
def run_tests_main (argv : List String) : ProcResult :=
  let prog := basenameStr (nthD argv 0 "")
  match parse_args (argv.drop 1) with
  | .ok v f =>
    { effects := [.writeStdout ("Running tests: verbose=" ++ pyStr v ++ ", filter=" ++ pyStr f)],
      exitCode := 0 }
  | .help =>
    { effects := (helpLines prog).map .writeStdout, exitCode := 0 }
  | .error msg =>
    { effects := [.writeStderr (usageLine prog), .writeStderr (prog ++ ": error: " ++ msg)],
      exitCode := 2 }

/-! ## Auxiliary predicates and lemmas -/

/-- `true` iff the token designates the `--verbose` option. -/
def isVerboseTok : Tok → Bool
  | .verboseOpt _ => true
  | _ => false

/-- `true` iff the token designates the `--filter` option. -/
def isFilterTok : Tok → Bool
  | .filterOpt _ => true
  | _ => false

/-- A successful parse leaves a flag at its initial value when no token of
the input designates that flag. -/
theorem parseLoop_ok_fields :
    ∀ (ts : List String) (v f : Option String) (ex : List String),
      ∀ v2 f2 : Option String,
        parseLoop ts v f ex = .ok v2 f2 →
        ((∀ t ∈ ts, isVerboseTok (classify t) = false) → v2 = v) ∧
        ((∀ t ∈ ts, isFilterTok (classify t) = false) → f2 = f) := by
  intro ts v f ex
  induction ts, v, f, ex using parseLoop.induct with
  | case1 v f ex hex =>
    intro v2 f2 hp
    rw [parseLoop.eq_1] at hp
    rw [if_pos hex] at hp
    obtain ⟨rfl, rfl⟩ := by simpa using hp
    exact ⟨fun _ => rfl, fun _ => rfl⟩
  | case2 v f ex hex =>
    intro v2 f2 hp
    rw [parseLoop.eq_1, if_neg hex] at hp
    exact absurd hp (by simp)
  | case3 t rest v f ex hct =>
    intro v2 f2 hp
    cases rest with
    | nil => rw [parseLoop.eq_2, hct] at hp; exact absurd hp (by simp)
    | cons a as => rw [parseLoop.eq_3, hct] at hp; exact absurd hp (by simp)
  | case4 t rest v f ex hct =>
    intro v2 f2 hp
    cases rest with
    | nil => rw [parseLoop.eq_2, hct] at hp; exact absurd hp (by simp)
    | cons a as => rw [parseLoop.eq_3, hct] at hp; exact absurd hp (by simp)
  | case5 t rest v f ex hct =>
    intro v2 f2 hp
    cases rest with
    | nil => rw [parseLoop.eq_2, hct] at hp; exact absurd hp (by simp)
    | cons a as => rw [parseLoop.eq_3, hct] at hp; exact absurd hp (by simp)
  | case6 t rest v f ex hct =>
    intro v2 f2 hp
    cases rest with
    | nil => rw [parseLoop.eq_2, hct] at hp; exact absurd hp (by simp)
    | cons a as => rw [parseLoop.eq_3, hct] at hp; exact absurd hp (by simp)
  | case7 t rest v f ex val hct ih =>
    intro v2 f2 hp
    have hrec : parseLoop rest (some val) f ex = .ok v2 f2 := by
      cases rest with
      | nil => rw [parseLoop.eq_2, hct] at hp; exact hp
      | cons a as => rw [parseLoop.eq_3, hct] at hp; exact hp
    have hmain := ih v2 f2 hrec
    refine ⟨fun h => absurd (h t (List.mem_cons_self t rest)) ?_,
            fun h => hmain.2 fun u hu => h u (List.mem_cons_of_mem t hu)⟩
    simp [hct, isVerboseTok]
  | case8 t v f ex hct =>
    intro v2 f2 hp
    rw [parseLoop.eq_2, hct] at hp
    exact absurd hp (by simp)
  | case9 t v f ex hct val rest2 hval ih =>
    intro v2 f2 hp
    rw [parseLoop.eq_3, hct] at hp
    have hrec : parseLoop rest2 (some val) f ex = .ok v2 f2 := by
      simpa [hval] using hp
    have hmain := ih v2 f2 hrec
    refine ⟨fun h => absurd (h t (List.mem_cons_self t _)) ?_,
            fun h => hmain.2 fun u hu =>
              h u (List.mem_cons_of_mem t (List.mem_cons_of_mem val hu))⟩
    simp [hct, isVerboseTok]
  | case10 t v f ex hct val rest2 hval =>
    intro v2 f2 hp
    rw [parseLoop.eq_3, hct] at hp
    exact absurd hp (by simp [hval])
  | case11 t rest v f ex val hct ih =>
    intro v2 f2 hp
    have hrec : parseLoop rest v (some val) ex = .ok v2 f2 := by
      cases rest with
      | nil => rw [parseLoop.eq_2, hct] at hp; exact hp
      | cons a as => rw [parseLoop.eq_3, hct] at hp; exact hp
    have hmain := ih v2 f2 hrec
    refine ⟨fun h => hmain.1 fun u hu => h u (List.mem_cons_of_mem t hu),
            fun h => absurd (h t (List.mem_cons_self t rest)) ?_⟩
    simp [hct, isFilterTok]
  | case12 t v f ex hct =>
    intro v2 f2 hp
    rw [parseLoop.eq_2, hct] at hp
    exact absurd hp (by simp)
  | case13 t v f ex hct val rest2 hval ih =>
    intro v2 f2 hp
    rw [parseLoop.eq_3, hct] at hp
    have hrec : parseLoop rest2 v (some val) ex = .ok v2 f2 := by
      simpa [hval] using hp
    have hmain := ih v2 f2 hrec
    refine ⟨fun h => hmain.1 fun u hu =>
              h u (List.mem_cons_of_mem t (List.mem_cons_of_mem val hu)),
            fun h => absurd (h t (List.mem_cons_self t _)) ?_⟩
    simp [hct, isFilterTok]
  | case14 t v f ex hct val rest2 hval =>
    intro v2 f2 hp
    rw [parseLoop.eq_3, hct] at hp
    exact absurd hp (by simp [hval])
  | case15 t rest v f ex hct ih =>
    intro v2 f2 hp
    have hrec : parseLoop rest v f (ex ++ [t]) = .ok v2 f2 := by
      cases rest with
      | nil => rw [parseLoop.eq_2, hct] at hp; exact hp
      | cons a as => rw [parseLoop.eq_3, hct] at hp; exact hp
    have hmain := ih v2 f2 hrec
    exact ⟨fun h => hmain.1 fun u hu => h u (List.mem_cons_of_mem t hu),
           fun h => hmain.2 fun u hu => h u (List.mem_cons_of_mem t hu)⟩
  | case16 t rest v f ex hct ih =>
    intro v2 f2 hp
    have hrec : parseLoop rest v f (ex ++ [t]) = .ok v2 f2 := by
      cases rest with
      | nil => rw [parseLoop.eq_2, hct] at hp; exact hp
      | cons a as => rw [parseLoop.eq_3, hct] at hp; exact hp
    have hmain := ih v2 f2 hrec
    exact ⟨fun h => hmain.1 fun u hu => h u (List.mem_cons_of_mem t hu),
           fun h => hmain.2 fun u hu => h u (List.mem_cons_of_mem t hu)⟩

/-- Specialisation to `parse_args`, whose initial flag values are `none`. -/
theorem parse_args_ok_fields (ts : List String) (v2 f2 : Option String)
    (hp : parse_args ts = .ok v2 f2) :
    ((∀ t ∈ ts, isVerboseTok (classify t) = false) → v2 = none) ∧
    ((∀ t ∈ ts, isFilterTok (classify t) = false) → f2 = none) :=
  parseLoop_ok_fields ts none none [] v2 f2 hp

/-- The canonical two-flag command line parses to the two supplied values. -/
theorem parse_args_canonical (v f : String)
    (hv : classify v = Tok.positional) (hf : classify f = Tok.positional) :
    parse_args ["--verbose", v, "--filter", f] = .ok (some v) (some f) := by
  have h1 : classify "--verbose" = Tok.verboseOpt none := rfl
  have h2 : classify "--filter" = Tok.filterOpt none := rfl
  unfold parse_args
  rw [parseLoop.eq_3, h1]
  simp only [hv, if_true, reduceIte]
  rw [parseLoop.eq_3, h2]
  simp only [hf, if_true, reduceIte]
  rw [parseLoop.eq_1]
  rfl

/-! ## Theorems for the specification claims -/

/-- C1: every invocation of `deploy.py` prints exactly the line
`Deploying to E`, where `E` is the first positional argument verbatim when one
is supplied and the default `staging` when none is. -/
theorem deploy_prints_target :
    (∀ p : String, (deploy_main [p]).effects = [.writeStdout "Deploying to staging"]) ∧
    (∀ (p e : String) (rest : List String),
      (deploy_main (p :: e :: rest)).effects = [.writeStdout ("Deploying to " ++ e)]) :=
  ⟨fun _ => rfl, fun _ _ _ => rfl⟩

/-- C2: every invocation of `build_project.py` prints exactly the line
`Building with config=C, output=O`, with `C` the first positional argument
(default `debug`) and `O` the second (default `dist`), both echoed verbatim. -/
theorem build_prints_config_and_output :
    (∀ p : String, (build_project_main [p]).effects =
      [.writeStdout "Building with config=debug, output=dist"]) ∧
    (∀ p c : String, (build_project_main [p, c]).effects =
      [.writeStdout ("Building with config=" ++ c ++ ", output=dist")]) ∧
    (∀ (p c o : String) (rest : List String),
      (build_project_main (p :: c :: o :: rest)).effects =
      [.writeStdout ("Building with config=" ++ c ++ ", output=" ++ o)]) := by
  refine ⟨fun p => rfl, fun p c => ?_, fun p c o rest => rfl⟩
  show [Effect.writeStdout ("Building with config=" ++ c ++ ", output=" ++ "dist")] = _
  rw [String.append_assoc]
  rfl

/-- C3: when both `--verbose` with value `V` and `--filter` with value `F` are
supplied to `run_tests.py`, it prints exactly
`Running tests: verbose=V, filter=F` with both values echoed verbatim, and
exits with status 0.  The first conjunct states this for any argument vector
whose parse assigns both flags; the second for the canonical command line
`run_tests.py --verbose V --filter F`. -/
theorem run_tests_echoes_supplied_flags :
    (∀ (argv : List String) (v f : String),
      parse_args (argv.drop 1) = .ok (some v) (some f) →
      run_tests_main argv =
        { effects := [.writeStdout ("Running tests: verbose=" ++ v ++ ", filter=" ++ f)],
          exitCode := 0 }) ∧
    (∀ (prog v f : String),
      classify v = Tok.positional → classify f = Tok.positional →
      run_tests_main [prog, "--verbose", v, "--filter", f] =
        { effects := [.writeStdout ("Running tests: verbose=" ++ v ++ ", filter=" ++ f)],
          exitCode := 0 }) := by
  have base : ∀ (argv : List String) (v f : String),
      parse_args (argv.drop 1) = .ok (some v) (some f) →
      run_tests_main argv =
        { effects := [.writeStdout ("Running tests: verbose=" ++ v ++ ", filter=" ++ f)],
          exitCode := 0 } := by
    intro argv v f hp
    simp only [run_tests_main, hp, pyStr]
  exact ⟨base, fun prog v f hv hf => base _ v f (parse_args_canonical v f hv hf)⟩

/-- C3 witness: the spec scenario `run_tests.py --verbose true --filter foo`. -/
theorem run_tests_echoes_supplied_flags_witness :
    run_tests_main ["run_tests.py", "--verbose", "true", "--filter", "foo"] =
      { effects := [.writeStdout "Running tests: verbose=true, filter=foo"],
        exitCode := 0 } :=
  run_tests_echoes_supplied_flags.2 "run_tests.py" "true" "foo" (by decide) (by decide)

/-- C4 counterexample: `run_tests.py extra` is rejected by the argparse layer
and the process exits with status 2, not 0. -/
theorem run_tests_nonzero_exit_on_unrecognized :
    (run_tests_main ["run_tests.py", "extra"]).exitCode ≠ 0 := by decide

/-- C4 (amended): `deploy.py` and `build_project.py` exit with status 0 on
every argument vector; `run_tests.py` exits with status 0 or 2, and exits
with 2 exactly when its argument parser rejects the arguments. -/
theorem exit_status_profile :
    (∀ argv : List String, (deploy_main argv).exitCode = 0) ∧
    (∀ argv : List String, (build_project_main argv).exitCode = 0) ∧
    (∀ argv : List String,
      (run_tests_main argv).exitCode = 0 ∨ (run_tests_main argv).exitCode = 2) ∧
    (∀ argv : List String, ((run_tests_main argv).exitCode = 2 ↔
      ∃ msg, parse_args (argv.drop 1) = .error msg)) := by
  refine ⟨fun _ => rfl, fun _ => rfl, fun argv => ?_, fun argv => ?_⟩
  · cases hp : parse_args (argv.drop 1) with
    | ok v f => exact Or.inl (by simp only [run_tests_main, hp])
    | help => exact Or.inl (by simp only [run_tests_main, hp])
    | error m => exact Or.inr (by simp only [run_tests_main, hp])
  · cases hp : parse_args (argv.drop 1) with
    | ok v f => simp only [run_tests_main, hp]; simp
    | help => simp only [run_tests_main, hp]; simp
    | error m => simp only [run_tests_main, hp]; simp

/-- C5: when `--verbose` (respectively `--filter`) is designated by no token
of the command line and parsing succeeds, no default is substituted: the
namespace holds `None` and the printed line shows `None` in that flag's
position. -/
theorem run_tests_absent_flag_prints_none :
    (∀ (argv : List String) (v f : Option String),
      (∀ t ∈ argv.drop 1, isVerboseTok (classify t) = false) →
      parse_args (argv.drop 1) = .ok v f →
      v = none ∧
      (run_tests_main argv).effects =
        [.writeStdout ("Running tests: verbose=None, filter=" ++ pyStr f)]) ∧
    (∀ (argv : List String) (v f : Option String),
      (∀ t ∈ argv.drop 1, isFilterTok (classify t) = false) →
      parse_args (argv.drop 1) = .ok v f →
      f = none ∧
      (run_tests_main argv).effects =
        [.writeStdout ("Running tests: verbose=" ++ pyStr v ++ ", filter=None")]) := by
  constructor
  · intro argv v f habs hp
    obtain rfl : v = none := (parse_args_ok_fields _ v f hp).1 habs
    refine ⟨rfl, ?_⟩
    simp only [run_tests_main, hp]
    rfl
  · intro argv v f habs hp
    obtain rfl : f = none := (parse_args_ok_fields _ v f hp).2 habs
    refine ⟨rfl, ?_⟩
    simp only [run_tests_main, hp]
    rw [String.append_assoc]
    rfl

/-- C5 witness: with no arguments at all, both flags print as `None`. -/
theorem run_tests_absent_flag_prints_none_witness :
    (run_tests_main ["run_tests.py"]).effects =
      [.writeStdout "Running tests: verbose=None, filter=None"] :=
  (run_tests_absent_flag_prints_none.1 ["run_tests.py"] none none (by decide) rfl).2

/-- C6 counterexample: on the rejected command line `run_tests.py extra` the
process writes no line at all to standard output (usage and error go to
standard error), so not every invocation writes exactly one stdout line. -/
theorem run_tests_error_no_stdout_line :
    (stdoutLines (run_tests_main ["run_tests.py", "extra"])).length ≠ 1 := by decide

/-- C6 (amended): `deploy.py` and `build_project.py` write exactly one line to
standard output on every invocation; `run_tests.py` writes exactly one line
when parsing succeeds, no line on a parse error, and the 8-line help text on
`-h`/`--help`. -/
theorem stdout_line_count_profile :
    (∀ argv : List String, (stdoutLines (deploy_main argv)).length = 1) ∧
    (∀ argv : List String, (stdoutLines (build_project_main argv)).length = 1) ∧
    (∀ (argv : List String) (v f : Option String),
      parse_args (argv.drop 1) = .ok v f →
      (stdoutLines (run_tests_main argv)).length = 1) ∧
    (∀ (argv : List String) (msg : String),
      parse_args (argv.drop 1) = .error msg →
      stdoutLines (run_tests_main argv) = []) ∧
    (∀ argv : List String,
      parse_args (argv.drop 1) = .help →
      (stdoutLines (run_tests_main argv)).length = 8) := by
  refine ⟨fun _ => rfl, fun _ => rfl, fun argv v f hp => ?_, fun argv msg hp => ?_,
         fun argv hp => ?_⟩
  · simp only [run_tests_main, hp]
    rfl
  · simp only [run_tests_main, hp]
    rfl
  · simp only [run_tests_main, hp]
    rfl

/-- C6 witness: one stdout line on a successful parse, none on a parse
error. -/
theorem stdout_line_count_profile_witness :
    (stdoutLines (run_tests_main ["run_tests.py"])).length = 1 ∧
    stdoutLines (run_tests_main ["run_tests.py", "extra"]) = [] :=
  ⟨stdout_line_count_profile.2.2.1 ["run_tests.py"] none none rfl,
   stdout_line_count_profile.2.2.2.1 ["run_tests.py", "extra"]
     "unrecognized arguments: extra" rfl⟩

/-- C7 counterexample: on the rejected command line `run_tests.py extra` the
process performs effects that are not writes to standard output (it writes
usage and an error message to standard error). -/
theorem run_tests_error_writes_to_stderr :
    (run_tests_main ["run_tests.py", "extra"]).effects.all isStdoutWrite = false := by
  decide

/-- C7 (amended): every effect of all three scripts is console output — there
are no filesystem reads or writes and no other persistent effects;
`deploy.py` and `build_project.py` write only to standard output, and
`run_tests.py` additionally writes to standard error on parse errors. -/
theorem scripts_console_only :
    (∀ argv : List String, (deploy_main argv).effects.all isStdoutWrite = true) ∧
    (∀ argv : List String, (build_project_main argv).effects.all isStdoutWrite = true) ∧
    (∀ argv : List String, (run_tests_main argv).effects.all isConsoleEffect = true) := by
  refine ⟨fun _ => rfl, fun _ => rfl, fun argv => ?_⟩
  cases hp : parse_args (argv.drop 1) with
  | ok v f => simp only [run_tests_main, hp]; rfl
  | help => simp only [run_tests_main, hp]; rfl
  | error m => simp only [run_tests_main, hp]; rfl

/-- C8: positional arguments beyond the documented ones are ignored: the
result of `deploy.py` depends only on `sys.argv[1]`, that of
`build_project.py` only on `sys.argv[1]` and `sys.argv[2]`, and extra
arguments never make either exit non-zero. -/
theorem extra_positional_args_ignored :
    (∀ a b : List String, a.get? 1 = b.get? 1 → deploy_main a = deploy_main b) ∧
    (∀ a b : List String, a.get? 1 = b.get? 1 → a.get? 2 = b.get? 2 →
      build_project_main a = build_project_main b) ∧
    (∀ a : List String,
      (deploy_main a).exitCode = 0 ∧ (build_project_main a).exitCode = 0) := by
  refine ⟨fun a b h => ?_, fun a b h1 h2 => ?_, fun a => ⟨rfl, rfl⟩⟩
  · simp only [deploy_main, nthD, h]
  · simp only [build_project_main, nthD, h1, h2]

/-- C8 witness: appending junk arguments changes neither output. -/
theorem extra_positional_args_ignored_witness :
    deploy_main ["deploy.py", "prod"] = deploy_main ["deploy.py", "prod", "x"] ∧
    build_project_main ["build_project.py", "release", "out"] =
      build_project_main ["build_project.py", "release", "out", "x"] :=
  ⟨extra_positional_args_ignored.1 ["deploy.py", "prod"] ["deploy.py", "prod", "x"] rfl,
   extra_positional_args_ignored.2.1 ["build_project.py", "release", "out"]
     ["build_project.py", "release", "out", "x"] rfl rfl⟩

/-- C9: with exactly one positional argument `C`, `build_project.py` still
applies the default for the second: it prints
`Building with config=C, output=dist`. -/
theorem build_single_arg_default_output (p c : String) :
    build_project_main [p, c] =
      { effects := [.writeStdout ("Building with config=" ++ c ++ ", output=dist")],
        exitCode := 0 } := by
  show ProcResult.mk
    [Effect.writeStdout ("Building with config=" ++ c ++ ", output=" ++ "dist")] 0 = _
  rw [String.append_assoc]
  rfl

/-- C10: the output of `run_tests.py` is not injective in the argument list:
the empty argument list and `--verbose None --filter None` produce the same
single output line `Running tests: verbose=None, filter=None`, because the
absent-flag indicator is the literal string `None`. -/
theorem run_tests_output_not_injective :
    run_tests_main ["run_tests.py"] =
      run_tests_main ["run_tests.py", "--verbose", "None", "--filter", "None"] ∧
    (["run_tests.py"] : List String) ≠
      ["run_tests.py", "--verbose", "None", "--filter", "None"] ∧
    (run_tests_main ["run_tests.py"]).effects =
      [.writeStdout "Running tests: verbose=None, filter=None"] :=
  ⟨by decide, by decide, by rfl⟩
